import Mathlib

/-!
# Verification of the ai_hint_crew gamification and fallback logic

Shallow embedding of the non-UI logic of `src/app.py` and
`src/ai_hint_project/crew.py`:

* the progress record `{level, xp, streak, last_visit, affinity}` and its
  mutating operations `add_xp`, `update_streak`, `add_affinity`;
* the default-on-failure loader `load_user_progress`;
* the append-only ratings log `save_rating`;
* the persona unlock filter `available_personas`;
* the code-likelihood detector `is_code_input`;
* the Hugging Face call wrapper `get_llm` with its fallback paths.

Python integers are embedded as `Int` (Python `%` on a positive divisor
agrees with `Int.emod`, the `%` of `Int`).  Calendar dates are embedded as
day numbers in `Int`: `today` is a number, yesterday is `today - 1`, and
the ISO strings stored in `last_visit` are `Option Int` (with `none` for
Python `None`).  The affinity dictionary is embedded as a total map
`String → Int` whose default value 0 matches `dict.get(name, 0)`.
-/

namespace AiHintCrew

/-- The progress record of `src/app.py`:
`level, xp, streak, last_visit, affinity`. -/
structure Progress where
  level : Int
  xp : Int
  streak : Int
  last_visit : Option Int
  affinity : String → Int

/-- The default progress record returned by `load_user_progress` when the
file is missing or unreadable:
level 1, xp 0, streak 0, last_visit None, affinity empty. -/
def defaultProgress : Progress :=
  { level := 1, xp := 0, streak := 0, last_visit := none, affinity := fun _ => 0 }

/-- The observable state of the `user_progress.json` file as seen by
`load_user_progress`: absent, present but raising on read/parse, or
successfully parsed to a progress record. -/
inductive ProgressFile where
  | missing
  | unreadable
  | parsed (p : Progress)

/-- Embeds `load_user_progress` of `src/app.py`: returns the parsed record when
the file exists and parses; any failure (missing file, read or parse
exception) falls through to the default record. -/
def load_user_progress : ProgressFile → Progress
  | .missing => defaultProgress
  | .unreadable => defaultProgress
  | .parsed p => p

/-- Embeds `get_xp_for_level` of `src/app.py`: `level * 100`. -/
def get_xp_for_level (level : Int) : Int :=
  level * 100

/-- Embeds `add_xp` of `src/app.py`: adds `amount` to XP, then — against the
threshold of the *pre-call* level — increments the level by one when the
new XP reaches it.  A single `if`, no loop: the level moves at most one
step per call. -/
def add_xp (amount : Int) (p : Progress) : Progress :=
  let xp' := p.xp + amount
  let next_level_xp := get_xp_for_level p.level
  if next_level_xp ≤ xp' then
    { p with xp := xp', level := p.level + 1 }
  else
    { p with xp := xp' }

/-- Embeds `update_streak` of `src/app.py`.  No-op when `last_visit` is already
today; otherwise: +1 streak when the last visit was exactly yesterday
(with a 20 XP bonus via `add_xp` whenever the incremented streak is
divisible by 7), reset to 1 otherwise, and `last_visit` set to today.
The Python `elif last_date != datetime.now().date()` guard is kept as
written even though it cannot fail in this date model. -/
def update_streak (today : Int) (p : Progress) : Progress :=
  if p.last_visit ≠ some today then
    let last_date := p.last_visit
    let yesterday := today - 1
    if last_date = some yesterday then
      let p1 := { p with streak := p.streak + 1 }
      let p2 := if p1.streak % 7 = 0 then add_xp 20 p1 else p1
      { p2 with last_visit := some today }
    else if last_date ≠ some today then
      { p with streak := 1, last_visit := some today }
    else
      { p with last_visit := some today }
  else
    p

/-- Embeds `add_affinity` of `src/app.py`: `affinity[name] = affinity.get(name, 0)
+ amount`.  The tier-upgrade check only sets a UI reward flag and touches
no progress field, so it is not part of the record update. -/
def add_affinity (persona_name : String) (amount : Int) (p : Progress) : Progress :=
  let old_affinity := p.affinity persona_name
  let new_affinity := old_affinity + amount
  { p with affinity := fun n => if n = persona_name then new_affinity else p.affinity n }

/-- A rating entry as assembled in `src/app.py` before `save_rating`. -/
structure Rating where
  timestamp : String
  persona : String
  question : String
  user_level : Int
  clarity : Int
  accuracy : Int
  helpfulness : Int
  feedback : String

/-- Embeds `save_rating` of `src/app.py`: the ratings file is opened in append
mode and one serialized record plus a newline is written, so at the record
level the log becomes the old log with the new record at the end.
(Serialization itself is `json.dumps` from the Python standard library.) -/
def save_rating (log : List Rating) (rating_data : Rating) : List Rating :=
  log ++ [rating_data]

/-- The hard-coded `persona_unlock_levels` dict of `src/app.py`. -/
def persona_unlock_levels : List (String × Int) :=
  [("Nova", 1), ("Spider-Gwen", 1), ("Yoda", 1), ("Elsa", 1),
   ("Batman", 11), ("Wednesday Addams", 11), ("Shuri", 21),
   ("Iron Man", 21), ("Katniss Everdeen", 21)]

/-- Embeds `available_personas` of `src/app.py`:
`[p for p, lvl in persona_unlock_levels.items() if lvl <= user_level]`. -/
def available_personas (user_level : Int) : List String :=
  (persona_unlock_levels.filter (fun x => x.2 ≤ user_level)).map Prod.fst

/-- The `code_patterns` list of `is_code_input` in
`src/ai_hint_project/crew.py`, verbatim (braces written with escapes). -/
def code_patterns : List String :=
  ["\\bdef\\b", "\\bclass\\b", "\\bimport\\b", "\\breturn\\b",
   "\\bif\\b\\s*\\(?.*?\\)?\\s*:", "\\bfor\\b\\s*\\(?.*?\\)?\\s*:",
   "\\bwhile\\b\\s*\\(?.*?\\)?\\s*:",
   "\\btry\\b\\s*:", "\\bexcept\\b\\s*:", "\\w+\\s*=\\s*.+",
   "\\w+\\(.*?\\)", "\x7b.*?\x7d", "<.*?>"]

/-- Embeds `is_code_input` of `src/ai_hint_project/crew.py`:
`any(re.search(pattern, text) for pattern in code_patterns)`.
`re.search` is the standard Python regex engine, external to this
repository; it is abstracted as the parameter `search`. -/
def is_code_input (search : String → String → Bool) (text : String) : Bool :=
  code_patterns.any (fun pat => search pat text)

/-- Outcome of one `requests.post` attempt inside `get_llm`: the call
raised, or it returned a response with a status code and body. -/
inductive AttemptOutcome where
  | raised
  | resp (status : Nat) (body : String)
deriving DecidableEq

/-- What `get_llm` hands back to its caller: the provider response
(`requests.Response`, on status 200) or a `FakeListLLM` over a list of
canned responses.  There is no constructor for a propagated exception. -/
inductive GetLlmResult where
  | response (body : String)
  | fallback (responses : List String)
deriving DecidableEq

/-- Embeds `get_llm` of `src/ai_hint_project/crew.py`, as a function of the
sequence of attempt outcomes the environment would produce.  Inside the
`try`: status 200 returns the response; any exception from the body is
caught and yields `FakeListLLM(["API error: Unable to fetch response."])`.
The 429 branch reads `time.time()`, but `crew.py` never imports `time`,
so that branch raises `NameError`, which the same handler catches — the
loop therefore returns on its first attempt on every path, and the
post-loop fallback is reached only for an empty attempt sequence. -/
def get_llm : List AttemptOutcome → GetLlmResult
  | [] => .fallback ["This is a fallback response."]
  | o :: _ =>
    match o with
    | .raised => .fallback ["API error: Unable to fetch response."]
    | .resp status body =>
      if status = 200 then
        .response body
      else if status = 429 then
        .fallback ["API error: Unable to fetch response."]
      else
        .fallback ["API error: Unable to fetch response from Hugging Face."]

/-- States of the progress record reachable from the default record by the
mutating operations of `src/app.py`.  Every `add_xp` call site in the app
passes a non-negative literal (5, 10, 15, 20), so XP steps carry
`0 ≤ amount`. -/
inductive Reachable : Progress → Prop where
  | init : Reachable defaultProgress
  | step_add_xp {p : Progress} (amount : Int) (h : 0 ≤ amount)
      (hp : Reachable p) : Reachable (add_xp amount p)
  | step_update_streak {p : Progress} (today : Int)
      (hp : Reachable p) : Reachable (update_streak today p)
  | step_add_affinity {p : Progress} (name : String) (amount : Int)
      (hp : Reachable p) : Reachable (add_affinity name amount p)

/-- Concrete reachable state: a single `add_xp(1000)` grant from the
default record.  XP 1000, but only one level-up fires. -/
def cexA : Progress := add_xp 1000 defaultProgress

/-- Concrete reachable state: ten `add_xp(100)` grants from the default
record.  XP 1000 as well, but a level-up fires at every grant. -/
def cexB : Progress :=
  add_xp 100 (add_xp 100 (add_xp 100 (add_xp 100 (add_xp 100
    (add_xp 100 (add_xp 100 (add_xp 100 (add_xp 100 (add_xp 100 defaultProgress)))))))))

/-- Concrete record whose last visit is day 5 (used at `today = 5`). -/
def pVisitedToday : Progress :=
  { level := 2, xp := 150, streak := 3, last_visit := some 5, affinity := fun _ => 0 }

/-- Concrete record whose last visit is day 4 (used at `today = 5`). -/
def pVisitedYesterday : Progress :=
  { level := 2, xp := 150, streak := 3, last_visit := some 4, affinity := fun _ => 0 }

/-- Concrete record with no prior visit. -/
def pLapsed : Progress :=
  { level := 2, xp := 150, streak := 3, last_visit := none, affinity := fun _ => 0 }

/-- Concrete record at streak 6 with last visit day 4: visiting on day 5
reaches streak 7 and triggers the weekly XP bonus. -/
def pStreakSix : Progress :=
  { level := 1, xp := 90, streak := 6, last_visit := some 4, affinity := fun _ => 0 }

/-! ## Theorems -/

/-- Frame fact about `add_xp`: it never touches the streak field. -/
theorem add_xp_streak (amount : Int) (p : Progress) :
    (add_xp amount p).streak = p.streak := by
  unfold add_xp; dsimp only; split <;> rfl

/-- Frame fact about `add_xp`: it never touches the affinity map. -/
theorem add_xp_affinity (amount : Int) (p : Progress) :
    (add_xp amount p).affinity = p.affinity := by
  unfold add_xp; dsimp only; split <;> rfl

/-- Frame fact about `add_xp`: it never touches the last-visit date. -/
theorem add_xp_last_visit (amount : Int) (p : Progress) :
    (add_xp amount p).last_visit = p.last_visit := by
  unfold add_xp; dsimp only; split <;> rfl

/-- A non-negative `add_xp` grant preserves the reachable-state invariant
relating level and XP. -/
theorem add_xp_inv (amount : Int) (ha : 0 ≤ amount) (p : Progress)
    (ih : 1 ≤ p.level ∧ (p.level - 1) * 100 ≤ p.xp) :
    1 ≤ (add_xp amount p).level ∧
      ((add_xp amount p).level - 1) * 100 ≤ (add_xp amount p).xp := by
  by_cases hc : p.level * 100 ≤ p.xp + amount <;>
    simp [add_xp, get_xp_for_level, hc] at ih ⊢ <;> omega

/-- Lemma: `update_streak` preserves the reachable-state invariant relating
level and XP (its only XP path is the non-negative 20 XP weekly bonus). -/
theorem update_streak_inv (today : Int) (p : Progress)
    (ih : 1 ≤ p.level ∧ (p.level - 1) * 100 ≤ p.xp) :
    1 ≤ (update_streak today p).level ∧
      ((update_streak today p).level - 1) * 100 ≤ (update_streak today p).xp := by
  by_cases h0 : p.last_visit = some today
  · simpa [update_streak, h0] using ih
  · by_cases hy : p.last_visit = some (today - 1)
    · by_cases h7 : (p.streak + 1) % 7 = 0
      · have := add_xp_inv 20 (by norm_num) { p with streak := p.streak + 1 } ih
        simpa [update_streak, h0, hy, h7] using this
      · simpa [update_streak, h0, hy, h7] using ih
    · simpa [update_streak, h0, hy] using ih

/-- C1: `add_xp(amount)` adds exactly `amount` to the XP field; the level
rises by exactly one when the new XP reaches the threshold of the
pre-call level, with
threshold `level * 100`, stays put otherwise, and never rises by more than
one in a single call, however many thresholds the added XP crosses. -/
theorem C1_add_xp_single_step (p : Progress) (amount : Int) :
    (add_xp amount p).xp = p.xp + amount ∧
    (add_xp amount p).level =
      (if get_xp_for_level p.level ≤ p.xp + amount then p.level + 1 else p.level) ∧
    (add_xp amount p).level ≤ p.level + 1 := by
  by_cases h : get_xp_for_level p.level ≤ p.xp + amount <;> simp [add_xp, h]

/-- C5: `add_xp` is monotonic for the non-negative amounts the app grants:
post-call XP is at least pre-call XP, and the level never decreases. -/
theorem C5_add_xp_monotonic (p : Progress) (amount : Int) (h : 0 ≤ amount) :
    p.xp ≤ (add_xp amount p).xp ∧ p.level ≤ (add_xp amount p).level := by
  by_cases hc : get_xp_for_level p.level ≤ p.xp + amount <;>
    simp [add_xp, hc] <;> omega

/-- Witness for C5 at a concrete record and amount. -/
theorem C5_add_xp_monotonic_witness :
    0 ≤ (30 : Int) ∧
      (defaultProgress.xp ≤ (add_xp 30 defaultProgress).xp ∧
        defaultProgress.level ≤ (add_xp 30 defaultProgress).level) :=
  ⟨by decide, C5_add_xp_monotonic defaultProgress 30 (by decide)⟩

/-- C10: when the progress file is missing, or exists but raises on read
or parse, `load_user_progress` returns the default record
`{level: 1, xp: 0, streak: 0, last_visit: None, affinity: {}}`. -/
theorem C10_load_user_progress_default :
    load_user_progress .missing = defaultProgress ∧
    load_user_progress .unreadable = defaultProgress ∧
    defaultProgress.level = 1 ∧ defaultProgress.xp = 0 ∧
    defaultProgress.streak = 0 ∧ defaultProgress.last_visit = none ∧
    ∀ name, defaultProgress.affinity name = 0 :=
  ⟨rfl, rfl, rfl, rfl, rfl, rfl, fun _ => rfl⟩

/-- C4: `is_code_input` is a pure boolean OR over the fixed pattern list:
it returns true exactly when some pattern in `code_patterns` matches the
text, and false exactly when none does. -/
theorem C4_is_code_input_or (search : String → String → Bool) (text : String) :
    (is_code_input search text = true ↔ ∃ pat ∈ code_patterns, search pat text = true) ∧
    (is_code_input search text = false ↔ ∀ pat ∈ code_patterns, search pat text = false) := by
  constructor
  · simp [is_code_input, List.any_eq_true]
  · simp [is_code_input, List.any_eq_false]

/-- C6: `save_rating` appends exactly one record at the end of the log:
the log grows by one, the new last record is the submitted one, and the
portion of the log preceding it is byte-for-byte the old log. -/
theorem C6_save_rating_append (log : List Rating) (r : Rating) :
    save_rating log r = log ++ [r] ∧
    (save_rating log r).length = log.length + 1 ∧
    (save_rating log r).getLast? = some r ∧
    (save_rating log r).take log.length = log := by
  refine ⟨rfl, by simp [save_rating], by simp [save_rating], by simp [save_rating]⟩

/-- C7: a persona of the catalog appears in `available_personas` exactly
when its unlock level is at most the current user level. -/
theorem C7_available_personas_iff (user_level : Int) (name : String) (u : Int)
    (h : (name, u) ∈ persona_unlock_levels) :
    name ∈ available_personas user_level ↔ u ≤ user_level := by
  fin_cases h <;>
  · by_cases h1 : (1 : Int) ≤ user_level <;>
    by_cases h11 : (11 : Int) ≤ user_level <;>
    by_cases h21 : (21 : Int) ≤ user_level <;>
      simp [available_personas, persona_unlock_levels, h1, h11, h21]

/-- Witness for C7: Batman (unlock level 11) at user level 11. -/
theorem C7_available_personas_iff_witness :
    ("Batman", (11 : Int)) ∈ persona_unlock_levels ∧
      ("Batman" ∈ available_personas 11 ↔ (11 : Int) ≤ 11) :=
  ⟨by decide, C7_available_personas_iff 11 "Batman" 11 (by decide)⟩

/-- C3: `update_streak` is a no-op when the last visit is already today;
it increments the streak by one when the last visit was exactly yesterday;
it resets the streak to 1 in every other case, including no prior visit;
and in the non-no-op cases it sets the last visit to today. -/
theorem C3_update_streak_spec (p : Progress) (today : Int) :
    (p.last_visit = some today → update_streak today p = p) ∧
    (p.last_visit = some (today - 1) →
      (update_streak today p).streak = p.streak + 1 ∧
      (update_streak today p).last_visit = some today) ∧
    (p.last_visit ≠ some today → p.last_visit ≠ some (today - 1) →
      (update_streak today p).streak = 1 ∧
      (update_streak today p).last_visit = some today) := by
  refine ⟨?_, ?_, ?_⟩
  · intro h; simp [update_streak, h]
  · intro h
    have hne : p.last_visit ≠ some today := by rw [h]; simp
    by_cases h7 : (p.streak + 1) % 7 = 0 <;>
      simp [update_streak, hne, h, h7, add_xp_streak]
  · intro h1 h2
    simp [update_streak, h1, h2]

/-- Witness for C3 on the three behaviours: already visited today,
visited yesterday, and no prior visit, all at `today = 5`. -/
theorem C3_update_streak_spec_witness :
    (update_streak 5 pVisitedToday = pVisitedToday) ∧
    ((update_streak 5 pVisitedYesterday).streak = pVisitedYesterday.streak + 1 ∧
      (update_streak 5 pVisitedYesterday).last_visit = some 5) ∧
    ((update_streak 5 pLapsed).streak = 1 ∧
      (update_streak 5 pLapsed).last_visit = some 5) :=
  ⟨(C3_update_streak_spec pVisitedToday 5).1 (by decide),
   (C3_update_streak_spec pVisitedYesterday 5).2.1 (by decide),
   (C3_update_streak_spec pLapsed 5).2.2 (by decide) (by decide)⟩

/-- C9: `update_streak` never touches the affinity map; it leaves XP and
level unchanged except in exactly one case — when the last visit was
yesterday and the incremented streak is a (positive, given a non-negative
streak) multiple of 7, it hands the record with its incremented streak and
updated visit date to `add_xp 20`, which may also raise the level. -/
theorem C9_update_streak_frame (p : Progress) (today : Int) (h : 0 ≤ p.streak) :
    (update_streak today p).affinity = p.affinity ∧
    (¬(p.last_visit = some (today - 1) ∧ (p.streak + 1) % 7 = 0) →
      (update_streak today p).xp = p.xp ∧ (update_streak today p).level = p.level) ∧
    ((p.last_visit = some (today - 1) ∧ (p.streak + 1) % 7 = 0) →
      0 < p.streak + 1 ∧ (7 ∣ (p.streak + 1)) ∧
      update_streak today p =
        add_xp 20 { p with streak := p.streak + 1, last_visit := some today }) := by
  refine ⟨?_, ?_, ?_⟩
  · by_cases h0 : p.last_visit = some today
    · simp [update_streak, h0]
    · by_cases hy : p.last_visit = some (today - 1) <;>
        by_cases h7 : (p.streak + 1) % 7 = 0 <;>
          simp [update_streak, h0, hy, h7, add_xp_affinity]
  · intro hno
    by_cases h0 : p.last_visit = some today
    · simp [update_streak, h0]
    · by_cases hy : p.last_visit = some (today - 1)
      · have h7 : ¬(p.streak + 1) % 7 = 0 := fun hc => hno ⟨hy, hc⟩
        simp [update_streak, h0, hy, h7]
      · simp [update_streak, h0, hy]
  · rintro ⟨hy, h7⟩
    have h0 : p.last_visit ≠ some today := by rw [hy]; simp
    refine ⟨by omega, by omega, ?_⟩
    simp [update_streak, h0, hy, h7]
    by_cases hc : get_xp_for_level p.level ≤ p.xp + 20 <;>
      simp [add_xp, hc]

/-- Witness for C9 at the bonus-triggering record `pStreakSix`. -/
theorem C9_update_streak_frame_witness :
    0 ≤ pStreakSix.streak ∧
      ((update_streak 5 pStreakSix).affinity = pStreakSix.affinity ∧
        (¬(pStreakSix.last_visit = some (5 - 1) ∧ (pStreakSix.streak + 1) % 7 = 0) →
          (update_streak 5 pStreakSix).xp = pStreakSix.xp ∧
          (update_streak 5 pStreakSix).level = pStreakSix.level) ∧
        ((pStreakSix.last_visit = some (5 - 1) ∧ (pStreakSix.streak + 1) % 7 = 0) →
          0 < pStreakSix.streak + 1 ∧ (7 ∣ (pStreakSix.streak + 1)) ∧
          update_streak 5 pStreakSix =
            add_xp 20
              { pStreakSix with streak := pStreakSix.streak + 1, last_visit := some 5 })) :=
  ⟨by decide, C9_update_streak_frame pStreakSix 5 (by decide)⟩

/-- C2 counterexample: the reachable states `cexA` (one grant of 1000 XP)
and `cexB` (ten grants of 100 XP) hold the same accumulated XP (1000) but
different levels (2 and 11) — level is not a function of XP over the
reachable states, refuting the claim at these two concrete states. -/
theorem C2_counterexample :
    Reachable cexA ∧ Reachable cexB ∧ cexA.xp = cexB.xp ∧ cexA.level ≠ cexB.level := by
  refine ⟨Reachable.step_add_xp 1000 (by norm_num) Reachable.init, ?_, ?_, ?_⟩
  · exact Reachable.step_add_xp 100 (by norm_num) (Reachable.step_add_xp 100 (by norm_num)
      (Reachable.step_add_xp 100 (by norm_num) (Reachable.step_add_xp 100 (by norm_num)
      (Reachable.step_add_xp 100 (by norm_num) (Reachable.step_add_xp 100 (by norm_num)
      (Reachable.step_add_xp 100 (by norm_num) (Reachable.step_add_xp 100 (by norm_num)
      (Reachable.step_add_xp 100 (by norm_num) (Reachable.step_add_xp 100 (by norm_num)
      Reachable.init)))))))))
  · decide
  · decide

/-- C2 amended: in every state reachable from the default record by the
mutating operations (with the non-negative XP grants the app issues), the
level is at least 1 and the accumulated XP is at least `(level - 1) * 100`
— the level stays within the step function of XP and never decreases, but
it is not determined by XP alone. -/
theorem C2_amended_invariant (p : Progress) (h : Reachable p) :
    1 ≤ p.level ∧ (p.level - 1) * 100 ≤ p.xp := by
  induction h with
  | init => exact ⟨le_refl 1, by norm_num [defaultProgress]⟩
  | step_add_xp amount ha hp ih => exact add_xp_inv amount ha _ ih
  | step_update_streak today hp ih => exact update_streak_inv today _ ih
  | step_add_affinity name amount hp ih => simpa [add_affinity] using ih

/-- Witness for the amended C2 at the reachable state `cexA`. -/
theorem C2_amended_invariant_witness :
    1 ≤ cexA.level ∧ (cexA.level - 1) * 100 ≤ cexA.xp :=
  C2_amended_invariant cexA (Reachable.step_add_xp 1000 (by norm_num) Reachable.init)

/-- C8: whatever the outcomes of the HTTP attempts, `get_llm` returns a
value — either the provider response or a `FakeListLLM` with a non-empty
canned response list — and it returns the provider response exactly when
the first attempt came back with status 200; every exception and every
non-200 status yields a fallback, never a propagated exception. -/
theorem C8_get_llm_no_raise (os : List AttemptOutcome) :
    ((∃ body, get_llm os = .response body) ∨
      (∃ msgs, get_llm os = .fallback msgs ∧ msgs ≠ [])) ∧
    (∀ body, get_llm os = .response body ↔ os.head? = some (.resp 200 body)) := by
  constructor
  · match os with
    | [] => right; exact ⟨_, rfl, by simp⟩
    | .raised :: rest => right; exact ⟨_, rfl, by simp⟩
    | .resp status body :: rest =>
      by_cases h200 : status = 200
      · left; exact ⟨body, by simp [get_llm, h200]⟩
      · by_cases h429 : status = 429
        · right
          exact ⟨["API error: Unable to fetch response."],
            by simp [get_llm, h200, h429], by simp⟩
        · right
          exact ⟨["API error: Unable to fetch response from Hugging Face."],
            by simp [get_llm, h200, h429], by simp⟩
  · intro body
    match os with
    | [] => simp [get_llm]
    | .raised :: rest => simp [get_llm]
    | .resp status b :: rest =>
      by_cases h200 : status = 200
      · subst h200; simp [get_llm]
      · by_cases h429 : status = 429 <;>
          simp [get_llm, h200, h429]

end AiHintCrew
